import Mathlib

/-!
Verification of the request-routing and shared-caching subsystem of the
HTTP-over-RPC proxy (src/rpc_worker.py and src/rpc_proxy_server.py).

The worker side (rpc_worker.py) is embedded as pure functions over an
explicit cache state: the shared cache directory becomes a map from cache
keys to stored records, `time.time()` / file mtimes become an explicit
`now : Int` argument, and the upstream HTTP fetch becomes an explicit
`Upstream` outcome argument.  The proxy side (rpc_proxy_server.py) is
embedded the same way: the RPC call becomes a function from worker URLs to
RPC outcomes, and the access-log file becomes the list of records appended
during one request.
-/

namespace HTTPoverRPC

/-- `CACHE_TTL = 60  # seconds` in rpc_worker.py.  Wall-clock times
(Python `time.time()` and file mtimes) are embedded as `Int` seconds;
response-body bytes as `Nat` values < 256. -/
def CACHE_TTL : Int := 60

/-- Lowercase hex digit of a value < 16, as produced by Python `bytes.hex()`:
`0`-`9` are code points 48-57, `a`-`f` are 97-102. -/
def hexDigitChar (n : Nat) : Char :=
  if n < 10 then Char.ofNat (48 + n) else Char.ofNat (87 + n)

/-- Value of a hex digit character, as accepted by Python `bytes.fromhex`
(both lowercase and uppercase); `none` on a non-hex character. -/
def hexDigitVal (c : Char) : Option Nat :=
  if 48 ≤ c.toNat ∧ c.toNat ≤ 57 then some (c.toNat - 48)
  else if 97 ≤ c.toNat ∧ c.toNat ≤ 102 then some (c.toNat - 87)
  else if 65 ≤ c.toNat ∧ c.toNat ≤ 70 then some (c.toNat - 55)
  else none

/-- Python `bytes.hex()`: each byte becomes two lowercase hex digits,
high nibble first. -/
def bytesHex : List Nat → List Char
  | [] => []
  | b :: bs => hexDigitChar (b / 16) :: hexDigitChar (b % 16) :: bytesHex bs

/-- Python `bytes.fromhex`: pairs of hex digits back to bytes; fails on an
odd-length string or a non-hex character (in the worker such a failure is
caught and treated as a cache miss). -/
def bytesFromHex : List Char → Option (List Nat)
  | [] => some []
  | [_] => none
  | h :: l :: rest =>
      match hexDigitVal h, hexDigitVal l, bytesFromHex rest with
      | some hv, some lv, some tail => some ((16 * hv + lv) :: tail)
      | _, _, _ => none

/-- Byte content of Python `str.encode()` for an error message; the exact
encoding is irrelevant to the claims, only that it is a function of the
string. -/
def strBytes (s : String) : List Nat :=
  s.data.map Char.toNat

/-- One cache record as serialized by `write_to_cache` into
`CACHE_DIR/<md5(url)>.json`: the JSON object
`{url, status, headers, content_hex, timestamp}`.  The `timestamp` field
also stands for the file's mtime, which `read_from_cache` consults: both
are set at the moment of the write, so one field models both. -/
structure CacheFile where
  url : String
  status : Nat
  headers : List (String × String)
  content_hex : List Char
  timestamp : Int
deriving Repr, DecidableEq

/-- The shared cache directory: cache keys (md5 hex digests of URLs) to
stored records.  Shared by every worker process. -/
abbrev Cache := String → Option CacheFile

/-- What `read_from_cache` hands back on a valid hit: the stored status,
headers, and the hex-decoded body bytes. -/
structure CachedData where
  status : Nat
  headers : List (String × String)
  content : List Nat
deriving Repr, DecidableEq

/-- The dict returned by the worker's `fetch_url` RPC:
`{status, headers, content, cached, worker}` plus an `error` key present
only on upstream failure. -/
structure FetchResult where
  status : Nat
  headers : List (String × String)
  content : List Nat
  cached : Bool
  worker : String
  error : Option String
deriving Repr, DecidableEq

/-- Outcome of the worker's upstream `urllib.request.urlopen` call:
a successful response, an `HTTPError` with its status code, or any other
exception (network error, timeout, ...). -/
inductive Upstream where
  | success (status : Nat) (headers : List (String × String)) (content : List Nat)
  | httpError (code : Nat) (msg : String)
  | otherError (msg : String)
deriving Repr, DecidableEq

/-- `read_from_cache(url)` in rpc_worker.py, over the cache state keyed by
`keyOf url` (`keyOf` stands for `get_cache_key`, i.e. the deterministic
`hashlib.md5(url).hexdigest()` of the external library): if a record exists
and `now - mtime < CACHE_TTL`, decode `content_hex` and return the data
(a decode failure raises, is caught, and becomes a miss); if the record
exists but is expired, delete it and miss; otherwise miss.  Returns the
result together with the possibly-updated cache state. -/
def read_from_cache (keyOf : String → String) (cache : Cache) (now : Int)
    (url : String) : Option CachedData × Cache :=
  let key := keyOf url
  match cache key with
  | none => (none, cache)
  | some file =>
      if now - file.timestamp < CACHE_TTL then
        match bytesFromHex file.content_hex with
        | some bs =>
            (some { status := file.status, headers := file.headers, content := bs }, cache)
        | none => (none, cache)
      else
        (none, fun k => if k = key then none else cache k)

/-- `write_to_cache(url, data)` in rpc_worker.py: serialize
`{url, status, headers, content_hex := data.content.hex(), timestamp := now}`
to the file for `keyOf url`, overwriting any prior record. -/
def write_to_cache (keyOf : String → String) (cache : Cache) (now : Int)
    (url : String) (data : FetchResult) : Cache :=
  let key := keyOf url
  fun k =>
    if k = key then
      some { url := url, status := data.status, headers := data.headers,
             content_hex := bytesHex data.content, timestamp := now }
    else cache k

/-- `fetch_url(url)` in rpc_worker.py: on a valid cache hit return the
stored status/headers/body with `cached = True`; on a miss consult upstream:
on success build the result with `cached = False`, write it to the shared
cache, and return it; on `HTTPError e` return status `e.code` with an
`error` field and do not write; on any other exception return status 500
with an `error` field and do not write. -/
def fetch_url (keyOf : String → String) (worker_id : String) (cache : Cache)
    (now : Int) (url : String) (upstream : Upstream) : FetchResult × Cache :=
  let rd := read_from_cache keyOf cache now url
  match rd.1 with
  | some c =>
      ({ status := c.status, headers := c.headers, content := c.content,
         cached := true, worker := worker_id, error := none }, rd.2)
  | none =>
      match upstream with
      | Upstream.success s h b =>
          let result : FetchResult :=
            { status := s, headers := h, content := b, cached := false,
              worker := worker_id, error := none }
          (result, write_to_cache keyOf rd.2 now url result)
      | Upstream.httpError code msg =>
          ({ status := code, headers := [], content := strBytes msg,
             cached := false, worker := worker_id, error := some msg }, rd.2)
      | Upstream.otherError msg =>
          ({ status := 500, headers := [], content := strBytes msg,
             cached := false, worker := worker_id, error := some msg }, rd.2)

/-- The round-robin load balancer's mutable state in rpc_proxy_server.py:
the monotonically increasing `self.index` counter (selection reads the
shared `active_workers` list, passed explicitly here). -/
structure LoadBalancer where
  index : Nat
deriving Repr, DecidableEq

/-- `LoadBalancer.get_worker` in rpc_proxy_server.py: if the active list is
empty return `None` (counter untouched); otherwise return
`active_workers[index % len(active_workers)]` and increment the counter.
The lock makes the whole body one atomic step, which a pure function is. -/
def get_worker (active_workers : List String) (lb : LoadBalancer) :
    Option String × LoadBalancer :=
  match active_workers with
  | [] => (none, lb)
  | a :: rest =>
      (some ((a :: rest).get
        ⟨lb.index % (a :: rest).length, Nat.mod_lt _ (Nat.succ_pos _)⟩),
       { index := lb.index + 1 })

/-- Outcome of one `proxy.health_check()` RPC in `check_workers`: either the
call returned and `reply s` carries its `status` field (`s = none` models a
malformed reply without that field, whose `result['status']` lookup raises),
or the call itself failed (transport error, timeout). -/
inductive HealthOutcome where
  | reply (status : Option String)
  | failure (msg : String)
deriving Repr, DecidableEq

/-- Whether one endpoint is counted alive by `check_workers`: the health
call returned a dict whose `status` field equals `ok`.  A missing field or
a raised exception lands in the `except` arm and counts as down. -/
def probe_one (health : String → HealthOutcome) (w : String) : Bool :=
  match health w with
  | HealthOutcome.reply (some s) => s == "ok"
  | _ => false

/-- Python `str.strip()` (`worker_url.strip()` in `check_workers`): drop
leading and trailing whitespace, character-wise. -/
def pyStrip (s : String) : String :=
  String.mk (((s.data.dropWhile Char.isWhitespace).reverse.dropWhile
    Char.isWhitespace).reverse)

/-- The loop of `check_workers` in rpc_proxy_server.py: strip each
configured URL, skip empty ones, probe the rest once each, and collect the
live ones in configuration order. -/
def check_workers (workers : List String) (health : String → HealthOutcome) :
    List String :=
  match workers with
  | [] => []
  | w :: ws =>
      let w2 := pyStrip w
      if w2 = "" then check_workers ws health
      else if probe_one health w2 then w2 :: check_workers ws health
      else check_workers ws health

/-- The proxy's shared mutable view of the worker pool: the
`active_workers` list. -/
structure ProxyState where
  active_workers : List String
deriving Repr, DecidableEq

/-- The tail of `check_workers`: `active_workers = alive` under
`worker_lock` — the computed live list replaces the previous active set
wholesale. -/
def apply_check_workers (_st : ProxyState) (workers : List String)
    (health : String → HealthOutcome) : ProxyState :=
  { active_workers := check_workers workers health }

/-- One access-log record as appended by `log_access` (the pipe-delimited
line's fields that come from its arguments; the timestamp and the domain
derived by `urlparse` are functions of these and the wall clock). -/
structure LogRecord where
  client_ip : String
  method : String
  url : String
  status : Nat
  worker : String
  cached : Bool
  response_time : Int
deriving Repr, DecidableEq

/-- An HTTP response as assembled for the client by `ProxyHandler.do_GET`:
status line, headers in send order, body bytes. -/
structure HttpResponse where
  status : Nat
  headers : List (String × String)
  body : List Nat
deriving Repr, DecidableEq

/-- Outcome of the `proxy.fetch_url(url)` RPC as seen by the proxy: a
well-formed reply dict, or any raised exception (transport error, timeout,
malformed reply). -/
inductive RpcOutcome where
  | reply (result : FetchResult)
  | failure (msg : String)
deriving Repr, DecidableEq

/-- URL derivation at the top of `do_GET`: pass through absolute-form
targets, otherwise synthesize against the default origin. -/
def buildUrl (path : String) : String :=
  if path.startsWith "http" then path else "http://example.com" ++ path

/-- Python `str()` of a bool, the value sent in the `X-Cached` header. -/
def pyStr (b : Bool) : String :=
  if b then "True" else "False"

/-- The `X-Response-Time` header value `f"{response_time:.2f}ms"`; the
float formatting is abstracted, only that it is a function of the elapsed
milliseconds matters. -/
def formatResponseTime (ms : Int) : String :=
  toString ms ++ "ms"

/-- Python `str.lower()` as applied to header names (`key.lower()` in
`do_GET`): character-wise lowering; header names are ASCII tokens, where
this coincides with Python's full-Unicode lowering. -/
def pyLower (s : String) : String :=
  String.mk (s.data.map Char.toLower)

/-- The header filter in `do_GET`:
`key.lower() not in ['transfer-encoding', 'connection']`. -/
def keep_header (k : String) : Bool :=
  decide (pyLower k ≠ "transfer-encoding" ∧ pyLower k ≠ "connection")

/-- Reply headers forwarded to the client: all of them except the
connection-management ones stripped by `keep_header`. -/
def forward_headers (hs : List (String × String)) : List (String × String) :=
  hs.filter (fun kv => keep_header kv.1)

/-- The proxy-identifying headers added after the forwarded ones. -/
def proxy_headers (worker : String) (cached : Bool) (ms : Int) :
    List (String × String) :=
  [("X-Proxy", "RPC-Proxy"), ("X-Worker", worker),
   ("X-Cached", pyStr cached), ("X-Response-Time", formatResponseTime ms)]

/-- `BaseHTTPRequestHandler.send_error`: an error response with the given
status and a generated HTML body (abstracted to the message bytes); the
overridden `log_message` suppresses its logging, so it appends nothing to
the access log. -/
def send_error (code : Nat) (msg : String) : HttpResponse :=
  { status := code, headers := [], body := strBytes msg }

/-- `ProxyHandler.do_GET` in rpc_proxy_server.py: build the target URL, ask
the load balancer for a worker — if none, send 503 and log one record with
worker `none`, cached `False`, latency `0`; otherwise issue the fetch RPC —
on a reply, send its status, the filtered reply headers plus the proxy
headers, and the body verbatim, and log one record from the reply; on a
raised exception, send 502 and log one record with the attempted worker URL.
Returns the client response, the access-log records appended, and the new
load-balancer state.  `elapsed_ms` stands for the measured
`(time.time() - start_time) * 1000`. -/
def do_GET (path client_ip : String) (active_workers : List String)
    (lb : LoadBalancer) (rpc : String → RpcOutcome) (elapsed_ms : Int) :
    HttpResponse × List LogRecord × LoadBalancer :=
  let url := buildUrl path
  match get_worker active_workers lb with
  | (none, lb2) =>
      (send_error 503 "No RPC workers available",
       [{ client_ip := client_ip, method := "GET", url := url, status := 503,
          worker := "none", cached := false, response_time := 0 }], lb2)
  | (some worker_url, lb2) =>
      match rpc worker_url with
      | RpcOutcome.reply result =>
          ({ status := result.status,
             headers := forward_headers result.headers ++
               proxy_headers result.worker result.cached elapsed_ms,
             body := result.content },
           [{ client_ip := client_ip, method := "GET", url := url,
              status := result.status, worker := result.worker,
              cached := result.cached, response_time := elapsed_ms }], lb2)
      | RpcOutcome.failure msg =>
          (send_error 502 ("RPC Error: " ++ msg),
           [{ client_ip := client_ip, method := "GET", url := url,
              status := 502, worker := worker_url, cached := false,
              response_time := elapsed_ms }], lb2)

/-! Helper lemmas. -/

/-- Decoding inverts encoding on a single hex digit. -/
theorem hexDigitVal_hexDigitChar (n : Nat) (h : n < 16) :
    hexDigitVal (hexDigitChar n) = some n := by
  interval_cases n <;> rfl

/-- `bytes.fromhex` inverts `bytes.hex()` on lists of genuine bytes. -/
theorem bytesFromHex_bytesHex : ∀ (bs : List Nat), (∀ b ∈ bs, b < 256) →
    bytesFromHex (bytesHex bs) = some bs
  | [], _ => rfl
  | b :: bs, h => by
      have hb : b < 256 := h b (List.mem_cons_self _ _)
      have h1 : b / 16 < 16 := by omega
      have h2 : b % 16 < 16 := by omega
      have ih := bytesFromHex_bytesHex bs (fun x hx => h x (List.mem_cons_of_mem _ hx))
      have hb2 : 16 * (b / 16) + b % 16 = b := by omega
      simp only [bytesHex, bytesFromHex, hexDigitVal_hexDigitChar _ h1,
        hexDigitVal_hexDigitChar _ h2, ih, hb2]

/-- `probe_one` holds exactly when the health reply carried `status = ok`. -/
theorem probe_one_eq_true (health : String → HealthOutcome) (w : String) :
    probe_one health w = true ↔ health w = HealthOutcome.reply (some "ok") := by
  cases hw : health w with
  | reply s =>
      cases s with
      | none => simp [probe_one, hw]
      | some v => simp [probe_one, hw]
  | failure m => simp [probe_one, hw]

/-- A cache read leaves every key either unchanged or (when it held the
url's expired record) emptied. -/
theorem read_from_cache_snd (keyOf : String → String) (cache : Cache)
    (now : Int) (url : String) (k : String) :
    (read_from_cache keyOf cache now url).2 k = cache k ∨
      ((read_from_cache keyOf cache now url).2 k = none ∧ k = keyOf url) := by
  cases hc : cache (keyOf url) with
  | none => simp [read_from_cache, hc]
  | some file =>
      by_cases hage : now - file.timestamp < CACHE_TTL
      · cases hdec : bytesFromHex file.content_hex <;>
          simp [read_from_cache, hc, hage, hdec]
      · by_cases hk : k = keyOf url
        · subst hk
          simp [read_from_cache, hc, hage]
        · simp [read_from_cache, hc, hage, hk]

/-! Claim theorems. -/

/-- Claim C2: a stored entry is served iff `now - write_timestamp < TTL`
(TTL = 60); a read at or past expiry deletes the stored record and reports
absent.  The hypothesis `hhex` says the stored record decodes (every record
produced by `write_to_cache` does). -/
theorem c2_ttl_expiry_on_read (keyOf : String → String) (cache : Cache)
    (now : Int) (url : String) (file : CacheFile) (bs : List Nat)
    (hstore : cache (keyOf url) = some file)
    (hhex : bytesFromHex file.content_hex = some bs) :
    ((read_from_cache keyOf cache now url).1 ≠ none ↔
        now - file.timestamp < CACHE_TTL) ∧
    (now - file.timestamp < CACHE_TTL →
        (read_from_cache keyOf cache now url).1 =
          some { status := file.status, headers := file.headers,
                 content := bs } ∧
        (read_from_cache keyOf cache now url).2 = cache) ∧
    (CACHE_TTL ≤ now - file.timestamp →
        (read_from_cache keyOf cache now url).1 = none ∧
        (read_from_cache keyOf cache now url).2 (keyOf url) = none) := by
  have hvalid : now - file.timestamp < CACHE_TTL →
      read_from_cache keyOf cache now url =
        (some { status := file.status, headers := file.headers,
                content := bs }, cache) := by
    intro hage
    simp [read_from_cache, hstore, hage, hhex]
  have hexpired : ¬ now - file.timestamp < CACHE_TTL →
      read_from_cache keyOf cache now url =
        (none, fun k => if k = keyOf url then none else cache k) := by
    intro hage
    simp [read_from_cache, hstore, hage]
  by_cases hage : now - file.timestamp < CACHE_TTL
  · rw [hvalid hage]
    exact ⟨by simp [hage], fun _ => ⟨rfl, rfl⟩,
      fun hle => absurd hage (not_lt.mpr hle)⟩
  · rw [hexpired hage]
    exact ⟨by simp [hage], fun hlt => absurd hlt hage, fun _ => ⟨rfl, by simp⟩⟩

/-- Witness for C2 at a concrete expired entry: written at time 0, read at
time 100, the read reports absent and the record is gone. -/
theorem c2_ttl_expiry_on_read_witness :
    (read_from_cache (fun s => s)
        (fun k => if k = "u" then
          some { url := "u", status := 200, headers := [], content_hex := [],
                 timestamp := 0 } else none) 100 "u").1 = none ∧
    (read_from_cache (fun s => s)
        (fun k => if k = "u" then
          some { url := "u", status := 200, headers := [], content_hex := [],
                 timestamp := 0 } else none) 100 "u").2 ((fun s => s) "u") =
      none := by
  have h := c2_ttl_expiry_on_read (fun s => s)
    (fun k => if k = "u" then
      some { url := "u", status := 200, headers := [], content_hex := [],
             timestamp := 0 } else none) 100 "u"
    { url := "u", status := 200, headers := [], content_hex := [],
      timestamp := 0 } [] (by simp) rfl
  exact h.2.2 (by decide)


/-- Counterexample to C4 as stated: with an expired record stored under the
URL's key, a fetch whose upstream fails does change the cache content for
that key — `read_from_cache` deletes the expired record before the upstream
attempt — so "after the call, the cache content for that URL's key is
unchanged" fails, even though nothing was written. -/
theorem c4_error_cache_key_changed :
    ((fun k => if k = "u" then
        some { url := "u", status := 200, headers := [],
               content_hex := ([] : List Char), timestamp := (0 : Int) }
      else none) : Cache) "u" ≠ none ∧
    (fetch_url (fun s => s) "w1"
      (fun k => if k = "u" then
        some { url := "u", status := 200, headers := [],
               content_hex := ([] : List Char), timestamp := (0 : Int) }
      else none) 100 "u"
      (Upstream.httpError 404 "HTTP Error 404: Not Found")).1.status = 404 ∧
    (fetch_url (fun s => s) "w1"
      (fun k => if k = "u" then
        some { url := "u", status := 200, headers := [],
               content_hex := ([] : List Char), timestamp := (0 : Int) }
      else none) 100 "u"
      (Upstream.httpError 404 "HTTP Error 404: Not Found")).2 "u" = none := by
  refine ⟨by simp, rfl, ?_⟩
  rfl

/-- Claim C4 (amended): on an upstream failure the result carries the
HTTP failure's status code (500 for non-HTTP failures) and an error
indicator, and no entry is written to the shared cache: every key holds its
previous content afterwards, except that the URL's key is emptied when the
read found its previously stored record expired. -/
theorem c4_upstream_failure_not_cached (keyOf : String → String) (w : String)
    (cache : Cache) (now : Int) (url : String) (code : Nat) (msg : String)
    (up : Upstream)
    (hmiss : (read_from_cache keyOf cache now url).1 = none)
    (hfail : up = Upstream.httpError code msg ∨ up = Upstream.otherError msg) :
    (fetch_url keyOf w cache now url up).1.status =
      (match up with
       | Upstream.httpError c _ => c
       | _ => 500) ∧
    (fetch_url keyOf w cache now url up).1.error = some msg ∧
    (fetch_url keyOf w cache now url up).1.cached = false ∧
    (∀ k, (fetch_url keyOf w cache now url up).2 k = cache k ∨
        ((fetch_url keyOf w cache now url up).2 k = none ∧ k = keyOf url)) := by
  have hsnd := read_from_cache_snd keyOf cache now url
  rcases hfail with rfl | rfl
  · refine ⟨by simp [fetch_url, hmiss], by simp [fetch_url, hmiss],
      by simp [fetch_url, hmiss], ?_⟩
    intro k
    simp only [fetch_url, hmiss]
    exact hsnd k
  · refine ⟨by simp [fetch_url, hmiss], by simp [fetch_url, hmiss],
      by simp [fetch_url, hmiss], ?_⟩
    intro k
    simp only [fetch_url, hmiss]
    exact hsnd k

/-- Witness for the amended C4: empty cache, upstream 404; the result
carries 404 with an error, nothing was cached. -/
theorem c4_upstream_failure_not_cached_witness :
    (fetch_url (fun s => s) "w1" (fun _ => none) 0 "u"
        (Upstream.httpError 404 "HTTP Error 404: Not Found")).1.status = 404 ∧
    (fetch_url (fun s => s) "w1" (fun _ => none) 0 "u"
        (Upstream.httpError 404 "HTTP Error 404: Not Found")).1.error =
      some "HTTP Error 404: Not Found" ∧
    (fetch_url (fun s => s) "w1" (fun _ => none) 0 "u"
        (Upstream.httpError 404 "HTTP Error 404: Not Found")).1.cached =
      false ∧
    ((fetch_url (fun s => s) "w1" (fun _ => none) 0 "u"
        (Upstream.httpError 404 "HTTP Error 404: Not Found")).2 "u" = none ∨
      ((fetch_url (fun s => s) "w1" (fun _ => none) 0 "u"
        (Upstream.httpError 404 "HTTP Error 404: Not Found")).2 "u" = none ∧
        "u" = "u")) := by
  have h := c4_upstream_failure_not_cached (fun s => s) "w1" (fun _ => none) 0
    "u" 404 "HTTP Error 404: Not Found"
    (Upstream.httpError 404 "HTTP Error 404: Not Found") rfl (Or.inl rfl)
  exact ⟨h.1.trans rfl, h.2.1, h.2.2.1, h.2.2.2 "u"⟩

/-- Claim C1: a fetch that succeeds upstream on a miss stores the entry;
any fetch of the same URL against the shared cache within the TTL window —
from any worker — returns byte-identical status, headers, and body, with
`cached = True`: the hex-encode/JSON-serialize write followed by the read
is a round trip. -/
theorem c1_shared_cache_consistency (keyOf : String → String) (w1 w2 : String)
    (cache : Cache) (t1 t2 : Int) (url : String) (s : Nat)
    (hd : List (String × String)) (body : List Nat)
    (hbytes : ∀ b ∈ body, b < 256)
    (hmiss : (read_from_cache keyOf cache t1 url).1 = none)
    (httl : t2 - t1 < CACHE_TTL) (up2 : Upstream) :
    (fetch_url keyOf w1 cache t1 url (Upstream.success s hd body)).1 =
      { status := s, headers := hd, content := body, cached := false,
        worker := w1, error := none } ∧
    (fetch_url keyOf w2
        (fetch_url keyOf w1 cache t1 url (Upstream.success s hd body)).2 t2
        url up2).1 =
      { status := s, headers := hd, content := body, cached := true,
        worker := w2, error := none } := by
  have h1 : fetch_url keyOf w1 cache t1 url (Upstream.success s hd body) =
      ({ status := s, headers := hd, content := body, cached := false,
         worker := w1, error := none },
       write_to_cache keyOf (read_from_cache keyOf cache t1 url).2 t1 url
         { status := s, headers := hd, content := body, cached := false,
           worker := w1, error := none }) := by
    simp [fetch_url, hmiss]
  refine ⟨by rw [h1], ?_⟩
  rw [h1]
  have hread : (read_from_cache keyOf
      (write_to_cache keyOf (read_from_cache keyOf cache t1 url).2 t1 url
        { status := s, headers := hd, content := body, cached := false,
          worker := w1, error := none }) t2 url).1 =
      some { status := s, headers := hd, content := body } := by
    simp [read_from_cache, write_to_cache, httl,
      bytesFromHex_bytesHex body hbytes]
  simp [fetch_url, hread]

/-- Witness for C1: empty shared cache, a 200 fetch of two body bytes at
time 0 by one worker, re-fetched at time 30 by another worker: identical
status, headers, and body, and a cache hit. -/
theorem c1_shared_cache_consistency_witness :
    (fetch_url (fun s => s) "worker-8001" (fun _ => none) 0
        "http://example.com/"
        (Upstream.success 200 [("Content-Type", "text/html")] [72, 105])).1 =
      { status := 200, headers := [("Content-Type", "text/html")],
        content := [72, 105], cached := false, worker := "worker-8001",
        error := none } ∧
    (fetch_url (fun s => s) "worker-8002"
        (fetch_url (fun s => s) "worker-8001" (fun _ => none) 0
          "http://example.com/"
          (Upstream.success 200 [("Content-Type", "text/html")]
            [72, 105])).2 30 "http://example.com/"
        (Upstream.otherError "unused")).1 =
      { status := 200, headers := [("Content-Type", "text/html")],
        content := [72, 105], cached := true, worker := "worker-8002",
        error := none } :=
  c1_shared_cache_consistency (fun s => s) "worker-8001" "worker-8002"
    (fun _ => none) 0 30 "http://example.com/" 200
    [("Content-Type", "text/html")] [72, 105] (by decide) rfl (by decide)
    (Upstream.otherError "unused")

/-- Claim C3: under a fixed active set of length n > 0 with counter value c,
`get_worker` returns `active_set[c mod n]` and increments the counter by
exactly one; with an empty active set it returns none, and the caller
treats that as a hard failure: `do_GET` answers 503 at once, with no retry
or wait. -/
theorem c3_round_robin_selection (aw : List String) (lb : LoadBalancer)
    (h : 0 < aw.length) :
    (get_worker aw lb).1 = some (aw.get ⟨lb.index % aw.length, Nat.mod_lt _ h⟩) ∧
    (get_worker aw lb).2.index = lb.index + 1 ∧
    (∀ (lb2 : LoadBalancer) (path ip : String) (rpc : String → RpcOutcome)
        (ms : Int),
      (get_worker [] lb2).1 = none ∧
      (do_GET path ip [] lb2 rpc ms).1.status = 503) := by
  cases aw with
  | nil => simp at h
  | cons a rest =>
      refine ⟨rfl, rfl, ?_⟩
      intro lb2 path ip rpc ms
      exact ⟨rfl, rfl⟩

/-- Witness for C3: two workers, counter 5; the call picks the second
worker (5 mod 2 = 1) and moves the counter to 6. -/
theorem c3_round_robin_selection_witness :
    (get_worker ["http://localhost:8001", "http://localhost:8002"]
        { index := 5 }).1 = some "http://localhost:8002" ∧
    (get_worker ["http://localhost:8001", "http://localhost:8002"]
        { index := 5 }).2.index = 6 := by
  have h := c3_round_robin_selection
    ["http://localhost:8001", "http://localhost:8002"] { index := 5 } (by decide)
  exact ⟨h.1.trans rfl, h.2.1⟩

/-- Claim C10: a `get_worker` call made while the active set is empty
leaves the round-robin counter unchanged; the counter moves exactly on
calls that return a worker. -/
theorem c10_empty_set_counter_frame (aw : List String) (lb : LoadBalancer) :
    get_worker [] lb = (none, lb) ∧
    ((get_worker aw lb).2.index = lb.index ∨
      ((get_worker aw lb).1 ≠ none ∧
        (get_worker aw lb).2.index = lb.index + 1)) := by
  refine ⟨rfl, ?_⟩
  cases aw with
  | nil => exact Or.inl rfl
  | cons a rest => exact Or.inr ⟨by simp [get_worker], rfl⟩

/-- Claim C5: a GET arriving while the active set is empty is answered 503
for every possible RPC layer (so no RPC is consulted), and appends exactly
one access-log record with worker `none`, cached `False`, latency 0. -/
theorem c5_no_workers_503 (path ip : String) (lb : LoadBalancer)
    (rpc : String → RpcOutcome) (ms : Int) :
    (do_GET path ip [] lb rpc ms).1.status = 503 ∧
    (do_GET path ip [] lb rpc ms).2.1 =
      [{ client_ip := ip, method := "GET", url := buildUrl path, status := 503,
         worker := "none", cached := false, response_time := 0 }] :=
  ⟨rfl, rfl⟩

/-- Claim C9: every GET request — success, 503 with no worker, or 502 on
RPC failure — appends exactly one access-log record. -/
theorem c9_exactly_one_log_record (path ip : String) (aw : List String)
    (lb : LoadBalancer) (rpc : String → RpcOutcome) (ms : Int) :
    (do_GET path ip aw lb rpc ms).2.1.length = 1 := by
  rcases hgw : get_worker aw lb with ⟨ow, lb2⟩
  cases ow with
  | none => simp [do_GET, hgw]
  | some w =>
      cases hr : rpc w with
      | reply r => simp [do_GET, hgw, hr]
      | failure m => simp [do_GET, hgw, hr]

/-- Claim C6: when a worker was selected but the fetch RPC to it raises,
the client gets 502 and exactly one access-log record is appended, carrying
the attempted worker's identifier and the elapsed latency. -/
theorem c6_rpc_failure_502 (path ip : String) (aw : List String)
    (lb : LoadBalancer) (rpc : String → RpcOutcome) (ms : Int) (w msg : String)
    (hw : (get_worker aw lb).1 = some w)
    (hr : rpc w = RpcOutcome.failure msg) :
    (do_GET path ip aw lb rpc ms).1.status = 502 ∧
    (do_GET path ip aw lb rpc ms).2.1 =
      [{ client_ip := ip, method := "GET", url := buildUrl path, status := 502,
         worker := w, cached := false, response_time := ms }] := by
  rcases hgw : get_worker aw lb with ⟨ow, lb2⟩
  rw [hgw] at hw
  simp only at hw
  subst hw
  exact ⟨by simp [do_GET, hgw, hr, send_error], by simp [do_GET, hgw, hr]⟩

/-- Witness for C6: one worker whose RPC always raises; the response is 502
and the single log record names the attempted worker and the latency. -/
theorem c6_rpc_failure_502_witness :
    (do_GET "http://example.com/" "1.2.3.4" ["http://localhost:8001"]
        { index := 0 } (fun _ => RpcOutcome.failure "timed out") 7).1.status =
      502 ∧
    (do_GET "http://example.com/" "1.2.3.4" ["http://localhost:8001"]
        { index := 0 } (fun _ => RpcOutcome.failure "timed out") 7).2.1 =
      [{ client_ip := "1.2.3.4", method := "GET",
         url := buildUrl "http://example.com/", status := 502,
         worker := "http://localhost:8001", cached := false,
         response_time := 7 }] :=
  c6_rpc_failure_502 "http://example.com/" "1.2.3.4" ["http://localhost:8001"]
    { index := 0 } (fun _ => RpcOutcome.failure "timed out") 7
    "http://localhost:8001" "timed out" rfl rfl

/-- Claim C7: a successful RPC reply is translated by copying every reply
header except those named (case-insensitively) `Transfer-Encoding` or
`Connection`, which are stripped; headers carrying the serving worker
identifier, the cache-hit flag, and the elapsed latency are added; the
reply body bytes go to the client verbatim, under the reply's status. -/
theorem c7_reply_translation (path ip : String) (aw : List String)
    (lb : LoadBalancer) (rpc : String → RpcOutcome) (ms : Int) (w : String)
    (result : FetchResult)
    (hw : (get_worker aw lb).1 = some w)
    (hr : rpc w = RpcOutcome.reply result) :
    (do_GET path ip aw lb rpc ms).1.status = result.status ∧
    (do_GET path ip aw lb rpc ms).1.body = result.content ∧
    (∀ kv ∈ result.headers,
        pyLower kv.1 ≠ "transfer-encoding" → pyLower kv.1 ≠ "connection" →
        kv ∈ (do_GET path ip aw lb rpc ms).1.headers) ∧
    (∀ kv ∈ result.headers,
        (pyLower kv.1 = "transfer-encoding" ∨ pyLower kv.1 = "connection") →
        kv ∉ (do_GET path ip aw lb rpc ms).1.headers) ∧
    ("X-Worker", result.worker) ∈ (do_GET path ip aw lb rpc ms).1.headers ∧
    ("X-Cached", pyStr result.cached) ∈
      (do_GET path ip aw lb rpc ms).1.headers ∧
    ("X-Response-Time", formatResponseTime ms) ∈
      (do_GET path ip aw lb rpc ms).1.headers := by
  rcases hgw : get_worker aw lb with ⟨ow, lb2⟩
  rw [hgw] at hw
  simp only at hw
  subst hw
  have hresp : (do_GET path ip aw lb rpc ms).1 =
      { status := result.status,
        headers := forward_headers result.headers ++
          proxy_headers result.worker result.cached ms,
        body := result.content } := by
    simp [do_GET, hgw, hr]
  rw [hresp]
  refine ⟨rfl, rfl, ?_, ?_, ?_, ?_, ?_⟩
  · intro kv hkv h1 h2
    have hk : keep_header kv.1 = true := by
      simp [keep_header]
      exact ⟨h1, h2⟩
    exact List.mem_append_left _ (List.mem_filter.mpr ⟨hkv, hk⟩)
  · intro kv hkv hlow hmem
    rcases List.mem_append.mp hmem with hf | hp
    · have hk := (List.mem_filter.mp hf).2
      simp [keep_header] at hk
      rcases hlow with h | h
      · exact hk.1 h
      · exact hk.2 h
    · have h1 : kv.1 = "X-Proxy" ∨ kv.1 = "X-Worker" ∨ kv.1 = "X-Cached" ∨
          kv.1 = "X-Response-Time" := by
        simp only [proxy_headers, List.mem_cons, List.not_mem_nil, or_false]
          at hp
        rcases hp with rfl | rfl | rfl | rfl
        · exact Or.inl rfl
        · exact Or.inr (Or.inl rfl)
        · exact Or.inr (Or.inr (Or.inl rfl))
        · exact Or.inr (Or.inr (Or.inr rfl))
      rcases h1 with h1 | h1 | h1 | h1 <;> rw [h1] at hlow <;>
        exact absurd hlow (by decide)
  · exact List.mem_append_right _ (by simp [proxy_headers])
  · exact List.mem_append_right _ (by simp [proxy_headers])
  · exact List.mem_append_right _ (by simp [proxy_headers])

/-- Witness for C7: a reply with one ordinary header and one
`Transfer-Encoding` header; the first is forwarded, the second stripped,
the proxy headers added, the body passed through. -/
theorem c7_reply_translation_witness :
    (do_GET "http://example.com/" "1.2.3.4" ["http://localhost:8001"]
        { index := 0 }
        (fun _ => RpcOutcome.reply
          { status := 200,
            headers := [("Content-Type", "text/html"),
                        ("Transfer-Encoding", "chunked")],
            content := [72, 105], cached := true, worker := "worker-8001",
            error := none }) 12).1.status = 200 ∧
    (do_GET "http://example.com/" "1.2.3.4" ["http://localhost:8001"]
        { index := 0 }
        (fun _ => RpcOutcome.reply
          { status := 200,
            headers := [("Content-Type", "text/html"),
                        ("Transfer-Encoding", "chunked")],
            content := [72, 105], cached := true, worker := "worker-8001",
            error := none }) 12).1.body = [72, 105] ∧
    ("Content-Type", "text/html") ∈
      (do_GET "http://example.com/" "1.2.3.4" ["http://localhost:8001"]
        { index := 0 }
        (fun _ => RpcOutcome.reply
          { status := 200,
            headers := [("Content-Type", "text/html"),
                        ("Transfer-Encoding", "chunked")],
            content := [72, 105], cached := true, worker := "worker-8001",
            error := none }) 12).1.headers ∧
    ("Transfer-Encoding", "chunked") ∉
      (do_GET "http://example.com/" "1.2.3.4" ["http://localhost:8001"]
        { index := 0 }
        (fun _ => RpcOutcome.reply
          { status := 200,
            headers := [("Content-Type", "text/html"),
                        ("Transfer-Encoding", "chunked")],
            content := [72, 105], cached := true, worker := "worker-8001",
            error := none }) 12).1.headers ∧
    ("X-Worker", "worker-8001") ∈
      (do_GET "http://example.com/" "1.2.3.4" ["http://localhost:8001"]
        { index := 0 }
        (fun _ => RpcOutcome.reply
          { status := 200,
            headers := [("Content-Type", "text/html"),
                        ("Transfer-Encoding", "chunked")],
            content := [72, 105], cached := true, worker := "worker-8001",
            error := none }) 12).1.headers := by
  have h := c7_reply_translation "http://example.com/" "1.2.3.4"
    ["http://localhost:8001"] { index := 0 }
    (fun _ => RpcOutcome.reply
      { status := 200,
        headers := [("Content-Type", "text/html"),
                    ("Transfer-Encoding", "chunked")],
        content := [72, 105], cached := true, worker := "worker-8001",
        error := none }) 12 "http://localhost:8001"
    { status := 200,
      headers := [("Content-Type", "text/html"),
                  ("Transfer-Encoding", "chunked")],
      content := [72, 105], cached := true, worker := "worker-8001",
      error := none } rfl rfl
  exact ⟨h.1, h.2.1,
    h.2.2.1 _ (by simp) (by decide) (by decide),
    h.2.2.2.1 _ (by simp) (Or.inl (by decide)),
    h.2.2.2.2.1⟩

/-- Membership in the live set computed by one probe round: exactly the
configured endpoints whose health call returned `status = ok` (for already
stripped, nonempty configured names). -/
theorem check_workers_mem : ∀ (workers : List String)
    (health : String → HealthOutcome),
    (∀ w ∈ workers, pyStrip w = w ∧ w ≠ "") → ∀ w,
    (w ∈ check_workers workers health ↔
      w ∈ workers ∧ health w = HealthOutcome.reply (some "ok"))
  | [], health, _, w => by simp [check_workers]
  | a :: ws, health, hclean, w => by
      have ha := hclean a (List.mem_cons_self _ _)
      have ih := check_workers_mem ws health
        (fun x hx => hclean x (List.mem_cons_of_mem _ hx)) w
      simp only [check_workers]
      rw [ha.1, if_neg ha.2]
      by_cases hp : probe_one health a = true
      · rw [if_pos hp]
        constructor
        · intro hmem
          rcases List.mem_cons.mp hmem with rfl | hmem2
          · exact ⟨List.mem_cons_self _ _, (probe_one_eq_true health w).mp hp⟩
          · have h2 := ih.mp hmem2
            exact ⟨List.mem_cons_of_mem _ h2.1, h2.2⟩
        · rintro ⟨hmem, hok⟩
          rcases List.mem_cons.mp hmem with rfl | hmem2
          · exact List.mem_cons_self _ _
          · exact List.mem_cons_of_mem _ (ih.mpr ⟨hmem2, hok⟩)
      · rw [if_neg hp]
        constructor
        · intro hmem
          have h2 := ih.mp hmem
          exact ⟨List.mem_cons_of_mem _ h2.1, h2.2⟩
        · rintro ⟨hmem, hok⟩
          rcases List.mem_cons.mp hmem with rfl | hmem2
          · exact absurd ((probe_one_eq_true health w).mpr hok) hp
          · exact ih.mpr ⟨hmem2, hok⟩

/-- Claim C8: in one probe round an endpoint is in the computed live set
iff its health call returned with `status = ok` (any transport error,
timeout, or malformed reply excludes it, probed once each), and the
computed set replaces the previous active set wholesale: the new state is
a function of the probe results alone, never an edit of the old list. -/
theorem c8_health_probe_live_set (workers : List String)
    (health : String → HealthOutcome)
    (hclean : ∀ w ∈ workers, pyStrip w = w ∧ w ≠ "") :
    (∀ w, w ∈ check_workers workers health ↔
        w ∈ workers ∧ health w = HealthOutcome.reply (some "ok")) ∧
    (∀ st : ProxyState,
        apply_check_workers st workers health =
          { active_workers := check_workers workers health }) :=
  ⟨check_workers_mem workers health hclean, fun _ => rfl⟩

/-- Witness for C8: two configured workers, the first healthy and the
second down; only the first is live, from any prior active set. -/
theorem c8_health_probe_live_set_witness :
    ("http://localhost:8001" ∈ check_workers
        ["http://localhost:8001", "http://localhost:8002"]
        (fun u => if u = "http://localhost:8001"
          then HealthOutcome.reply (some "ok")
          else HealthOutcome.failure "connection refused") ∧
      "http://localhost:8002" ∉ check_workers
        ["http://localhost:8001", "http://localhost:8002"]
        (fun u => if u = "http://localhost:8001"
          then HealthOutcome.reply (some "ok")
          else HealthOutcome.failure "connection refused")) ∧
    apply_check_workers { active_workers := ["stale"] }
        ["http://localhost:8001", "http://localhost:8002"]
        (fun u => if u = "http://localhost:8001"
          then HealthOutcome.reply (some "ok")
          else HealthOutcome.failure "connection refused") =
      { active_workers := check_workers
          ["http://localhost:8001", "http://localhost:8002"]
          (fun u => if u = "http://localhost:8001"
            then HealthOutcome.reply (some "ok")
            else HealthOutcome.failure "connection refused") } := by
  have h := c8_health_probe_live_set
    ["http://localhost:8001", "http://localhost:8002"]
    (fun u => if u = "http://localhost:8001"
      then HealthOutcome.reply (some "ok")
      else HealthOutcome.failure "connection refused")
    (by decide)
  refine ⟨⟨(h.1 "http://localhost:8001").mpr ⟨by decide, by decide⟩, ?_⟩,
    h.2 { active_workers := ["stale"] }⟩
  intro hmem
  have h2 := (h.1 "http://localhost:8002").mp hmem
  exact absurd h2.2 (by decide)

end HTTPoverRPC
